import Mathlib

/-!
Shallow embedding of the `llm-rest-api` gateway: the model resolver, the
buffered and streaming generate routes, the health route and the document
pipeline, translated from `src/` (Python/FastAPI). Backend I/O (the HTTP
calls to the inference backend, PDF extraction, wall-clock timing) is
represented by explicit outcome parameters; Python exceptions are an
explicit error type threaded through `Except`.

Python strings are sequences of Unicode code points; Lean's `String` is the
same, so strings stay `String`, but the string operations the code uses are
re-implemented here by structural recursion over `String.data` (the core
library's versions use well-founded recursion, which the kernel cannot
evaluate); each is the exact counterpart of the Python operation on the
ASCII fragment these claims exercise.
-/

/-- ASCII fragment of Python `str.lower`: map each character A-Z to a-z. -/
def lowerChar (c : Char) : Char :=
  if 65 ≤ c.toNat ∧ c.toNat ≤ 90 then Char.ofNat (c.toNat + 32) else c

/-- Python `s.lower()`. -/
def pyLower (s : String) : String := String.mk (s.data.map lowerChar)

/-- Whether the first list is a prefix of the second. -/
def startsWithChars : List Char → List Char → Bool
  | [], _ => true
  | _ :: _, [] => false
  | c :: cs, d :: ds => c == d && startsWithChars cs ds

/-- Python `s.startswith(p)`. -/
def pyStartsWith (s p : String) : Bool := startsWithChars p.data s.data

/-- Python `s.endswith(p)`. -/
def pyEndsWith (s p : String) : Bool := startsWithChars p.data.reverse s.data.reverse

/-- Python `c in s` for a single-character needle `c`. -/
def pyContainsChar (s : String) (c : Char) : Bool := s.data.any (· == c)

/-- Python `len(s)`: the number of code points. -/
def pyLen (s : String) : Nat := s.data.length

/-- Python `s[:n]`: the first `n` code points. -/
def pyTake (s : String) (n : Nat) : String := String.mk (s.data.take n)

/-- ASCII fragment of Python's `str.strip` whitespace set. -/
def isSpaceChar (c : Char) : Bool :=
  c == ' ' || c == '\t' || c == '\n' || c == '\r' || c.toNat == 11 || c.toNat == 12

/-- Python `s.strip()`. -/
def pyStrip (s : String) : String :=
  String.mk (((s.data.dropWhile isSpaceChar).reverse.dropWhile isSpaceChar).reverse)

/-- One entry of the backend's model catalog, as parsed from the listing
endpoint's `{"models": [...]}` array: the `name` and `model` fields of one
object (a missing key reads as `""`, matching `dict.get(key, "")`). -/
structure CatalogEntry where
  name : String
  model : String
deriving DecidableEq

/-- Pure matching core of `OllamaProvider.check_model_exists`
(src/services/ollama_provider.py lines 153-168): normalize the requested
name (lower-case, append ":latest" when it has no colon), then scan the
catalog for an entry whose lower-cased full or base name equals the
normalized name, or whose full or base name starts with the lower-cased
requested name followed by ":". -/
def check_model_exists_models (model_name : String) (models : List CatalogEntry) : Bool :=
  let model_name_normalized := pyLower model_name
  let model_name_normalized :=
    if pyContainsChar model_name_normalized ':' then model_name_normalized
    else model_name_normalized ++ ":latest"
  models.any fun model =>
    let model_full_name := pyLower model.name
    let model_base_name := pyLower model.model
    (model_name_normalized == model_full_name || model_name_normalized == model_base_name)
      || pyStartsWith model_full_name (pyLower model_name ++ ":")
      || pyStartsWith model_base_name (pyLower model_name ++ ":")

/-- Model Resolver matching rule in the spec's words (spec §4.2): lower-case
the requested name and append the default tag ":latest" when it carries no
colon-separated version tag; a catalog entry matches if its full name or its
base name (both lower-cased) equals the normalized requested name, or if
either of those names starts with the requested name followed by ":"
(case-insensitive). -/
def resolver_spec_matches (requested : String) (catalog : List CatalogEntry) : Bool :=
  let normalized :=
    if pyContainsChar (pyLower requested) ':' then pyLower requested
    else pyLower requested ++ ":latest"
  catalog.any fun entry =>
    (normalized == pyLower entry.name || normalized == pyLower entry.model)
      || pyStartsWith (pyLower entry.name) (pyLower requested ++ ":")
      || pyStartsWith (pyLower entry.model) (pyLower requested ++ ":")

/-- Outcome of the HTTP GET to the backend's model-listing endpoint
(`/api/tags`) as `OllamaProvider` observes it: a response with a status code
and the parsed `models` array, or a raised exception (transport error,
timeout, unparsable body). -/
inductive TagsResult where
  | resp (statusCode : Nat) (models : List CatalogEntry)
  | raised
deriving DecidableEq

/-- `OllamaProvider.health_check` (src/services/ollama_provider.py lines
128-134): `response.status_code == 200`; any exception yields `False`. -/
def OllamaProvider.health_check : TagsResult → Bool
  | .resp statusCode _ => statusCode == 200
  | .raised => false

/-- `OllamaProvider.check_model_exists` (src/services/ollama_provider.py lines
136-170): a non-200 listing response yields `False`, any exception yields
`False`, otherwise the pure matching loop runs on the parsed catalog. -/
def OllamaProvider.check_model_exists (tags : TagsResult) (model_name : String) : Bool :=
  match tags with
  | .resp statusCode models =>
    if statusCode != 200 then false
    else check_model_exists_models model_name models
  | .raised => false

/-- `ModelNotFoundError` (src/exceptions.py): carries the model name and the
provider identifier. -/
structure ModelNotFoundErr where
  model_name : String
  provider : String
deriving DecidableEq

/-- `ModelNotFoundError._generate_message` (src/exceptions.py lines 22-37). -/
def ModelNotFoundErr.message (e : ModelNotFoundErr) : String :=
  if e.provider == "ollama" then
    "Model '" ++ e.model_name ++ "' not found. "
      ++ "To download this model, run:\n\n"
      ++ "  ollama pull " ++ e.model_name ++ "\n\n"
      ++ "To see available models, run:\n"
      ++ "  ollama list\n\n"
      ++ "For more models, visit: https://ollama.ai/library"
  else
    "Model '" ++ e.model_name ++ "' not found for provider '" ++ e.provider ++ "'"

/-- The structured instruction set of `ModelNotFoundError._get_instructions`. -/
structure MNFInstructions where
  download_command : String
  list_models_command : String
  browse_models_url : String
deriving DecidableEq

/-- `ModelNotFoundError._get_instructions` (src/exceptions.py lines 53-65):
the ollama commands, or the empty dict (`none`) for another provider. -/
def ModelNotFoundErr.instructions (e : ModelNotFoundErr) : Option MNFInstructions :=
  if e.provider == "ollama" then
    some { download_command := "ollama pull " ++ e.model_name
           list_models_command := "ollama list"
           browse_models_url := "https://ollama.ai/library" }
  else none

/-- The dictionary shape of `ModelNotFoundError.to_dict`. -/
structure MNFDict where
  error : String
  model_name : String
  provider : String
  message : String
  instructions : Option MNFInstructions
deriving DecidableEq

/-- `ModelNotFoundError.to_dict` (src/exceptions.py lines 39-51). -/
def ModelNotFoundErr.to_dict (e : ModelNotFoundErr) : MNFDict :=
  { error := "Model Not Found"
    model_name := e.model_name
    provider := e.provider
    message := e.message
    instructions := e.instructions }

/-- The Python exceptions the embedded code raises or catches; the
constructors keep the class distinctions the `except` clauses test
(fastapi's `HTTPException` is neither a `ModelNotFoundError` nor a
`ValueError`, so only a bare `except Exception` catches it). -/
inductive PyExc where
  | httpExc (statusCode : Nat) (detail : String)
  | modelNotFound (e : ModelNotFoundErr)
  | valueError (msg : String)
  | typeError (msg : String)
  | otherExc (msg : String)
deriving DecidableEq

/-- Python `str(e)` for each exception class (starlette's `HTTPException`
prints as `"<status_code>: <detail>"`). -/
def PyExc.str : PyExc → String
  | .httpExc statusCode detail => toString statusCode ++ ": " ++ detail
  | .modelNotFound e => e.message
  | .valueError msg => msg
  | .typeError msg => msg
  | .otherExc msg => msg

/-- `GenerateRequest` (src/models/schemas.py lines 6-34): the raw field
values with the declared defaults. The float fields are embedded as
rationals: validation only compares them with the bounds, and every float is
a rational, so the comparisons agree. -/
structure GenerateRequest where
  prompt : String
  max_tokens : Int := 512
  temperature : Rat := 7/10
  top_p : Rat := 9/10
  top_k : Int := 40
  stop_sequences : Option (List String) := none
  stream : Bool := false
  model : Option String := none
deriving DecidableEq

/-- Pydantic validation of `GenerateRequest`: the `ge`/`le` bounds of the
`Field` declarations plus the `prompt_must_not_be_empty` validator
(`not v or not v.strip()` fails). -/
def GenerateRequest.valid (r : GenerateRequest) : Bool :=
  !(r.prompt == "" || pyStrip r.prompt == "")
    && decide (1 ≤ r.max_tokens) && decide (r.max_tokens ≤ 4096)
    && decide (0 ≤ r.temperature) && decide (r.temperature ≤ 2)
    && decide (0 ≤ r.top_p) && decide (r.top_p ≤ 1)
    && decide (0 ≤ r.top_k)

/-- `GenerateResponse` (src/models/schemas.py lines 37-49). -/
structure GenerateResponse where
  generated_text : String
  prompt : String
  model_used : String
  tokens_generated : Int
  finish_reason : String
  generation_time_ms : Rat
deriving DecidableEq

/-- The fields `OllamaProvider.generate` reads from the backend's one-object
JSON answer (`response`, `eval_count`, `done_reason`, with the `dict.get`
defaults already applied). -/
structure OllamaGenerateData where
  response : String
  eval_count : Int
  done_reason : String
deriving DecidableEq

/-- Outcome of the backend's non-streaming generate call as the provider
observes it: a parsed success answer, or a raised `httpx.HTTPError` carrying
a message. -/
inductive BackendGenResult where
  | ok (data : OllamaGenerateData)
  | httpError (msg : String)
deriving DecidableEq

/-- `OllamaProvider.generate` (src/services/ollama_provider.py lines 39-86):
the model-existence check runs first and raises `ModelNotFoundError` on
absence; otherwise the backend call either yields the parsed answer -
assembled into a `GenerateResponse` with the provider's model name, the
echoed prompt and the measured wall-clock time `elapsed_ms` - or raises, and
the `httpx.HTTPError` is re-raised as a generic `Exception` with the
"Failed to generate response: " message. -/
def OllamaProvider.generate (self_model_name : String) (request : GenerateRequest)
    (tags : TagsResult) (backend : BackendGenResult) (elapsed_ms : Rat) :
    Except PyExc GenerateResponse :=
  if OllamaProvider.check_model_exists tags self_model_name then
    match backend with
    | .ok data =>
      .ok { generated_text := data.response
            prompt := request.prompt
            model_used := self_model_name
            tokens_generated := data.eval_count
            finish_reason := data.done_reason
            generation_time_ms := elapsed_ms }
    | .httpError msg => .error (.otherExc ("Failed to generate response: " ++ msg))
  else .error (.modelNotFound { model_name := self_model_name, provider := "ollama" })

/-- `LLMService._get_provider_for_request` (src/services/llm_service.py lines
45-63), reduced to the model name the provider bound to this request
carries: `model_name and model_name != self._provider...model_name` switches
to a fresh provider bound to the requested name, otherwise the default
provider (bound to `default_model`) is reused. -/
def LLMService.provider_model (default_model : String) (r : GenerateRequest) : String :=
  match r.model with
  | some m => if m != "" && m != default_model then m else default_model
  | none => default_model

/-- `LLMService.generate_text` (src/services/llm_service.py lines 29-43):
resolve the provider for the request, then `provider.generate(request)`. -/
def LLMService.generate_text (default_model : String) (r : GenerateRequest)
    (tags : TagsResult) (backend : BackendGenResult) (elapsed_ms : Rat) :
    Except PyExc GenerateResponse :=
  OllamaProvider.generate (LLMService.provider_model default_model r) r tags backend elapsed_ms

/-- Detail payload of a fastapi `HTTPException`: a plain string, or the
`ModelNotFoundError.to_dict` mapping. -/
inductive Detail where
  | text (msg : String)
  | modelNotFoundDict (d : MNFDict)
deriving DecidableEq

/-- HTTP result of a buffered route: 200 with a `GenerateResponse` body, or
an `HTTPException` with a status code and detail. -/
inductive RouteResponse where
  | success (resp : GenerateResponse)
  | httpError (statusCode : Nat) (detail : Detail)
deriving DecidableEq

/-- HTTP status code of a buffered route result. -/
def RouteResponse.statusCode : RouteResponse → Nat
  | .success _ => 200
  | .httpError s _ => s

/-- Route handler `POST /generate` (src/api/routes.py lines 40-81): inside
the `try`, `stream=true` raises `HTTPException(400, ...)`, otherwise
`llm_service.generate_text` runs; the `except` chain then tests
`ModelNotFoundError` (404 with `to_dict`), `ValueError` (400), and finally
`Exception` (500 with "Failed to generate text: " ++ str(e)) - the
`HTTPException` raised for `stream=true` matches only the last clause. -/
def generate_text (default_model : String) (r : GenerateRequest)
    (tags : TagsResult) (backend : BackendGenResult) (elapsed_ms : Rat) : RouteResponse :=
  let body : Except PyExc GenerateResponse :=
    if r.stream then
      .error (.httpExc 400 "Use /generate/stream endpoint for streaming responses")
    else LLMService.generate_text default_model r tags backend elapsed_ms
  match body with
  | .ok resp => .success resp
  | .error (.modelNotFound e) => .httpError 404 (.modelNotFoundDict e.to_dict)
  | .error (.valueError msg) => .httpError 400 (.text msg)
  | .error e => .httpError 500 (.text ("Failed to generate text: " ++ e.str))

/-- `POST /generate` including fastapi's request-body step: pydantic rejects
an invalid `GenerateRequest` with a validation-error response (HTTP 422)
before the route handler body runs, so no backend interaction happens. -/
def generate_endpoint (default_model : String) (r : GenerateRequest)
    (tags : TagsResult) (backend : BackendGenResult) (elapsed_ms : Rat) : RouteResponse :=
  if r.valid then generate_text default_model r tags backend elapsed_ms
  else .httpError 422 (.text "request validation failed")

/-- Lower-case hexadecimal digit, as `json.dumps` writes `\uXXXX` escapes. -/
def hexDigit (n : Nat) : Char :=
  if n < 10 then Char.ofNat (48 + n) else Char.ofNat (87 + n)

/-- Four lower-case hex digits. -/
def hex4 (n : Nat) : String :=
  String.mk [hexDigit (n / 4096 % 16), hexDigit (n / 256 % 16), hexDigit (n / 16 % 16),
    hexDigit (n % 16)]

/-- `json.dumps` escaping of one character (default `ensure_ascii=True`:
backslash, double quote and the five short control escapes, every other
character outside 0x20-0x7E as `\uXXXX`, astral code points as a surrogate
pair). -/
def jsonEscapeChar (c : Char) : String :=
  if c == '\x22' then "\\\""
  else if c == '\\' then "\\\\"
  else if c == '\n' then "\\n"
  else if c == '\r' then "\\r"
  else if c == '\t' then "\\t"
  else if c.toNat == 8 then "\\b"
  else if c.toNat == 12 then "\\f"
  else if 32 ≤ c.toNat && c.toNat ≤ 126 then String.mk [c]
  else if c.toNat < 65536 then "\\u" ++ hex4 c.toNat
  else
    "\\u" ++ hex4 (55296 + (c.toNat - 65536) / 1024)
      ++ "\\u" ++ hex4 (56320 + (c.toNat - 65536) % 1024)

/-- `json.dumps` of one Python string value. -/
def jsonDumpsStr (s : String) : String :=
  "\"" ++ String.join (s.data.map jsonEscapeChar) ++ "\""

/-- `json.dumps({'text': chunk})` with the default separators (`': '`). -/
def dumps_text (chunk : String) : String := "\x7b\"text\": " ++ jsonDumpsStr chunk ++ "\x7d"

/-- `json.dumps({'error': msg})` with the default separators. -/
def dumps_error (msg : String) : String := "\x7b\"error\": " ++ jsonDumpsStr msg ++ "\x7d"

/-- `json.dumps` of the `_get_instructions` dict (insertion order of
src/exceptions.py lines 59-64; the non-ollama branch returns `{}`). -/
def dumps_instructions : Option MNFInstructions → String
  | some i =>
    "\x7b\"download_command\": " ++ jsonDumpsStr i.download_command
      ++ ", \"list_models_command\": " ++ jsonDumpsStr i.list_models_command
      ++ ", \"browse_models_url\": " ++ jsonDumpsStr i.browse_models_url ++ "\x7d"
  | none => "\x7b\x7d"

/-- `json.dumps(e.to_dict())`: the five keys in the insertion order of
src/exceptions.py lines 45-51. -/
def dumps_mnf (d : MNFDict) : String :=
  "\x7b\"error\": " ++ jsonDumpsStr d.error
    ++ ", \"model_name\": " ++ jsonDumpsStr d.model_name
    ++ ", \"provider\": " ++ jsonDumpsStr d.provider
    ++ ", \"message\": " ++ jsonDumpsStr d.message
    ++ ", \"instructions\": " ++ dumps_instructions d.instructions ++ "\x7d"

/-- How an iterated Python generator body ends: normal exhaustion, or a
raised exception. -/
inductive StreamOutcome where
  | done
  | raised (e : PyExc)
deriving DecidableEq

/-- The async-generator object `provider.generate_stream(request)` returns.
Calling an async generator function runs none of its body: the object only
captures the provider state and the arguments (`run` below is what iterating
it produces). `backendFrags` are the `response` fragments of the backend's
newline-delimited JSON stream; `backendEnd` is `some msg` when the stream
raises `httpx.HTTPError` after them, `none` when it closes normally. -/
structure AsyncGenObj where
  self_model_name : String
  tags : TagsResult
  backendFrags : List String
  backendEnd : Option String
deriving DecidableEq

/-- Iterating `OllamaProvider.generate_stream`'s body
(src/services/ollama_provider.py lines 88-126): the model-existence check
runs first and raises `ModelNotFoundError` before any yield; then every
backend fragment is yielded in order; a mid-stream `httpx.HTTPError` is
re-raised as a generic `Exception` with the "Failed to generate streaming
response: " message. -/
def AsyncGenObj.run (g : AsyncGenObj) : List String × StreamOutcome :=
  if OllamaProvider.check_model_exists g.tags g.self_model_name then
    (g.backendFrags,
      match g.backendEnd with
      | none => .done
      | some msg => .raised (.otherExc ("Failed to generate streaming response: " ++ msg)))
  else ([], .raised (.modelNotFound { model_name := g.self_model_name, provider := "ollama" }))

/-- Python `await` applied to an async-generator object: async generators are
not awaitable, so the await raises
`TypeError: object async_generator can't be used in 'await' expression`
whatever the object holds. -/
def pyAwaitAsyncGen (_g : AsyncGenObj) : Except PyExc AsyncGenObj :=
  .error (.typeError "object async_generator can't be used in 'await' expression")

/-- The body of `LLMService.generate_text_stream` (src/services/llm_service.py
lines 65-80), itself an async generator iterated by the route: it resolves
the provider, then runs `stream = await provider.generate_stream(request)`
(line 78). `OllamaProvider.generate_stream` is an async generator function,
so the await raises `TypeError` before any chunk, and the exception
propagates to the consumer; the fragment relay (`async for chunk in stream:
yield chunk`) is never reached. -/
def LLMService.generate_text_stream (default_model : String) (r : GenerateRequest)
    (tags : TagsResult) (backendFrags : List String) (backendEnd : Option String) :
    List String × StreamOutcome :=
  let agen : AsyncGenObj :=
    { self_model_name := LLMService.provider_model default_model r
      tags := tags
      backendFrags := backendFrags
      backendEnd := backendEnd }
  match pyAwaitAsyncGen agen with
  | .ok g => g.run
  | .error e => ([], .raised e)

/-- `generate_chunks` inside the `POST /generate/stream` handler
(src/api/routes.py lines 111-125): every chunk the iterated llm_service
stream yields becomes one `data: {"text": ...}` SSE event; normal exhaustion
appends the `data: [DONE]` event; a `ModelNotFoundError` raised by the
stream yields its `to_dict` payload as the final event and a generic
exception yields a `data: {"error": ...}` event - in both raise cases the
generator then ends without `[DONE]`. -/
def generate_chunks : List String → StreamOutcome → List String
  | chunk :: rest, outcome =>
    ("data: " ++ dumps_text chunk ++ "\n\n") :: generate_chunks rest outcome
  | [], .done => ["data: [DONE]\n\n"]
  | [], .raised (.modelNotFound e) => ["data: " ++ dumps_mnf e.to_dict ++ "\n\n"]
  | [], .raised e => ["data: " ++ dumps_error e.str ++ "\n\n"]

/-- The `StreamingResponse` of `POST /generate/stream`: status code, media
type and the finite list of SSE events the wrapped generator produces. -/
structure StreamResponse where
  statusCode : Nat
  media_type : String
  events : List String
deriving DecidableEq

/-- Route handler `POST /generate/stream` (src/api/routes.py lines 94-145):
the `try` body only defines `generate_chunks` and returns
`StreamingResponse(generate_chunks(), media_type="text/event-stream")` with
HTTP 200; neither creating the generator object nor the `StreamingResponse`
constructor raises, so the 404/500 `except` branches after it never run and
every exception surfaces inside the event stream. -/
def generate_text_stream (default_model : String) (r : GenerateRequest)
    (tags : TagsResult) (backendFrags : List String) (backendEnd : Option String) :
    StreamResponse :=
  let out := LLMService.generate_text_stream default_model r tags backendFrags backendEnd
  { statusCode := 200
    media_type := "text/event-stream"
    events := generate_chunks out.fst out.snd }

/-- Modelled from the spec: the class `DocumentQuestionRequest` is imported
by src/api/routes.py and src/services/document_service.py from
src/models/schemas.py but is not defined in that module (or anywhere else
under src/). Spec §3 DocumentQuestion: question (non-empty string) + same
generation parameters + context_mode (full|summary|smart, default full);
field defaults therefore follow `GenerateRequest`'s. -/
structure DocumentQuestionRequest where
  question : String
  max_tokens : Int := 512
  temperature : Rat := 7/10
  top_p : Rat := 9/10
  top_k : Int := 40
  stop_sequences : Option (List String) := none
  model : Option String := none
  context_mode : String := "full"
deriving DecidableEq

/-- Modelled from the spec: pydantic validation of `DocumentQuestionRequest`
- a non-empty (after stripping) question plus the GenerationRequest
parameter bounds. -/
def DocumentQuestionRequest.valid (r : DocumentQuestionRequest) : Bool :=
  !(r.question == "" || pyStrip r.question == "")
    && decide (1 ≤ r.max_tokens) && decide (r.max_tokens ≤ 4096)
    && decide (0 ≤ r.temperature) && decide (r.temperature ≤ 2)
    && decide (0 ≤ r.top_p) && decide (r.top_p ≤ 1)
    && decide (0 ≤ r.top_k)

/-- The form parameters of `POST /document/question` with their declared
defaults (src/api/routes.py lines 223-237): `max_tokens` defaults to 1024
here, `context_mode` to "full". -/
structure DocumentQuestionForm where
  question : String
  max_tokens : Int := 1024
  temperature : Rat := 7/10
  top_p : Rat := 9/10
  top_k : Int := 40
  model : Option String := none
  context_mode : String := "full"
deriving DecidableEq

/-- The bounds fastapi enforces on the `/document/question` form parameters:
the `ge`/`le` arguments of the `Form` fields (src/api/routes.py lines
226-233). -/
def DocumentQuestionForm.paramsOk (max_tokens : Int) (temperature top_p : Rat)
    (top_k : Int) : Bool :=
  decide (1 ≤ max_tokens) && decide (max_tokens ≤ 4096)
    && decide (0 ≤ temperature) && decide (temperature ≤ 2)
    && decide (0 ≤ top_p) && decide (top_p ≤ 1)
    && decide (0 ≤ top_k)

/-- The bounds pydantic enforces on `GenerateRequest`'s generation
parameters: the `ge`/`le` of the `Field` declarations
(src/models/schemas.py lines 10-19). -/
def GenerateRequest.paramsOk (max_tokens : Int) (temperature top_p : Rat)
    (top_k : Int) : Bool :=
  decide (1 ≤ max_tokens) && decide (max_tokens ≤ 4096)
    && decide (0 ≤ temperature) && decide (temperature ≤ 2)
    && decide (0 ≤ top_p) && decide (top_p ≤ 1)
    && decide (0 ≤ top_k)

/-- `DocumentService._build_prompt` (src/services/document_service.py lines
78-105): in "summary" context mode a text of more than 4000 characters is
replaced by its first 4000 characters plus the truncation marker; any other
mode leaves the text unmodified; the result is embedded into the fixed
template. -/
def build_prompt (question document_text : String) (context_mode : String) : String :=
  let document_text :=
    if context_mode == "summary" then
      if pyLen document_text > 4000 then
        pyTake document_text 4000 ++ "\n\n[... document truncated ...]"
      else document_text
    else document_text
  "Based on the following document content, please answer the question.\n\nDocument Content:\n"
    ++ document_text ++ "\n\nQuestion: " ++ question ++ "\n\nAnswer:"

/-- `DocumentService.answer_question_about_document`
(src/services/document_service.py lines 28-76): the format check raises
`ValueError` for a non-PDF name; extraction (the external capability,
represented by its outcome: extracted text or the `ValueError` message
`PDFProcessor.extract_text` raises) runs next; then the prompt is built, a
fresh pydantic-validated `GenerateRequest` is constructed (stream=False),
and `llm_service.generate_text` answers it. -/
def answer_question_about_document (default_model : String)
    (r : DocumentQuestionRequest) (filename : String)
    (extraction : Except String String) (tags : TagsResult)
    (backend : BackendGenResult) (elapsed_ms : Rat) : Except PyExc GenerateResponse :=
  if !(pyEndsWith (pyLower filename) ".pdf") then
    .error (.valueError "Unsupported document format. Only PDF files are currently supported.")
  else
    match extraction with
    | .error msg => .error (.valueError msg)
    | .ok document_text =>
      let prompt := build_prompt r.question document_text r.context_mode
      let generate_request : GenerateRequest :=
        { prompt := prompt
          max_tokens := r.max_tokens
          temperature := r.temperature
          top_p := r.top_p
          top_k := r.top_k
          stop_sequences := r.stop_sequences
          stream := false
          model := r.model }
      if generate_request.valid then
        LLMService.generate_text default_model generate_request tags backend elapsed_ms
      else .error (.valueError "GenerateRequest validation failed")

/-- Route handler `POST /document/question` (src/api/routes.py lines
223-317): inside the `try`, a missing/non-`.pdf` filename and an empty
upload raise `HTTPException(400, ...)`; then `DocumentQuestionRequest` is
constructed (pydantic's ValidationError is a `ValueError`) and the document
service runs. The `except` chain tests `ValueError` (400),
`ModelNotFoundError` (404 with `to_dict`), then `Exception` (500 with
"Failed to process document question: " ++ str(e)) - the `HTTPException`s
raised by the file checks match only the last clause. The uploaded bytes
are represented by their byte list. -/
def ask_document_question (default_model : String) (form : DocumentQuestionForm)
    (file_name : String) (file_content : List UInt8)
    (extraction : Except String String) (tags : TagsResult)
    (backend : BackendGenResult) (elapsed_ms : Rat) : RouteResponse :=
  let body : Except PyExc GenerateResponse :=
    if file_name == "" || !(pyEndsWith (pyLower file_name) ".pdf") then
      .error (.httpExc 400 "Only PDF files are supported. Please upload a .pdf file.")
    else if file_content.isEmpty then
      .error (.httpExc 400 "Uploaded file is empty")
    else
      let request : DocumentQuestionRequest :=
        { question := form.question
          max_tokens := form.max_tokens
          temperature := form.temperature
          top_p := form.top_p
          top_k := form.top_k
          stop_sequences := none
          model := form.model
          context_mode := form.context_mode }
      if request.valid then
        answer_question_about_document default_model request file_name extraction tags
          backend elapsed_ms
      else .error (.valueError "DocumentQuestionRequest validation failed")
  match body with
  | .ok resp => .success resp
  | .error (.valueError msg) => .httpError 400 (.text msg)
  | .error (.modelNotFound e) => .httpError 404 (.modelNotFoundDict e.to_dict)
  | .error e => .httpError 500 (.text ("Failed to process document question: " ++ e.str))

/-- The mapping `OllamaProvider.get_model_info` returns
(src/services/ollama_provider.py lines 172-178). -/
structure ModelInfoDict where
  provider : String
  model_name : String
  base_url : String
deriving DecidableEq

/-- `OllamaProvider.get_model_info`. -/
def get_model_info (model_name base_url : String) : ModelInfoDict :=
  { provider := "ollama", model_name := model_name, base_url := base_url }

/-- `HealthResponse` (src/models/schemas.py lines 52-59). -/
structure HealthResponse where
  status : String
  model_loaded : Bool
  model_info : Option ModelInfoDict
deriving DecidableEq

/-- Route handler `GET /health` (src/api/routes.py lines 155-181): always
HTTP 200; `status` is "healthy"/"unhealthy" after
`llm_service.check_health` (= `provider.health_check`, which catches every
exception itself); `model_info` is attached only when healthy. The
handler's own `except` branch also answers 200 with an unhealthy body. -/
def health_check_route (tags : TagsResult) (model_name base_url : String) :
    Nat × HealthResponse :=
  let is_healthy := OllamaProvider.health_check tags
  (200,
    { status := if is_healthy then "healthy" else "unhealthy"
      model_loaded := is_healthy
      model_info := if is_healthy then some (get_model_info model_name base_url) else none })

/-- A 4001-character document text: concrete input exceeding the summary
mode's 4000-character budget. -/
def bigText : String := String.mk (List.replicate 4001 'a')

/-- C1, counterexample: the claim asserts
`exists("llama2:7b", ["llama2:latest"]) = true`, but on the code the
normalized name "llama2:7b" equals neither catalog name and
"llama2:latest" does not start with "llama2:7b:", so the matcher answers
false. -/
theorem c1_counterexample :
    check_model_exists_models "llama2:7b"
      [{ name := "llama2:latest", model := "llama2:latest" }] = false := by
  decide

/-- C1 (amended): `check_model_exists`'s matching agrees with the spec's
normalization-and-matching rule on every input, and
`exists("llama2", ["llama2:latest"]) = true`,
`exists("llama3", ["llama2:latest"]) = false` as claimed - but
`exists("llama2:7b", ["llama2:latest"]) = false`: the prefix rule tests
whether a catalog name starts with the requested name followed by ":",
which "llama2:latest" does not for "llama2:7b". -/
theorem c1_model_resolver :
    (∀ (name : String) (catalog : List CatalogEntry),
        check_model_exists_models name catalog = resolver_spec_matches name catalog)
    ∧ check_model_exists_models "llama2"
        [{ name := "llama2:latest", model := "llama2:latest" }] = true
    ∧ check_model_exists_models "llama2:7b"
        [{ name := "llama2:latest", model := "llama2:latest" }] = false
    ∧ check_model_exists_models "llama3"
        [{ name := "llama2:latest", model := "llama2:latest" }] = false :=
  ⟨fun _ _ => rfl, by decide, by decide, by decide⟩

/-- C2: evaluating the code at the claimed inputs shows HTTP 500, not 400.
The `HTTPException(400, ...)` each check raises inside the `try` is caught
by the handler's final `except Exception` clause and re-raised as a 500
whose detail wraps the original message; this holds for `stream=true` on
`POST /generate` and for the non-PDF-filename and empty-upload checks of
`POST /document/question` (the latter two still fire before any extraction
attempt: the response does not depend on the extraction outcome). -/
theorem c2_bad_request_becomes_500 (default_model : String) (tags : TagsResult)
    (backend : BackendGenResult) (elapsed_ms : Rat) (extraction : Except String String) :
    generate_text default_model { prompt := "Hello", stream := true } tags backend elapsed_ms
      = .httpError 500
          (.text "Failed to generate text: 400: Use /generate/stream endpoint for streaming responses")
    ∧ ask_document_question default_model { question := "What?" } "notes.txt" [1]
        extraction tags backend elapsed_ms
      = .httpError 500
          (.text "Failed to process document question: 400: Only PDF files are supported. Please upload a .pdf file.")
    ∧ ask_document_question default_model { question := "What?" } "doc.pdf" []
        extraction tags backend elapsed_ms
      = .httpError 500
          (.text "Failed to process document question: 400: Uploaded file is empty") :=
  ⟨rfl, rfl, rfl⟩

/-- C3: the claimed fragment-by-fragment SSE relay never happens. Whatever
the backend would stream, `LLMService.generate_text_stream` raises
`TypeError` at `stream = await provider.generate_stream(request)` (awaiting
an async-generator object) before any chunk, so every streaming request
produces the single generic error event; at the spec's example input the
produced sequence differs from the claimed
`{"text": "Hello"}, {"text": " world"}, [DONE]` sequence. -/
theorem c3_stream_relay_broken (default_model : String) (r : GenerateRequest)
    (tags : TagsResult) (backendFrags : List String) (backendEnd : Option String) :
    (generate_text_stream default_model r tags backendFrags backendEnd).events
      = ["data: \x7b\"error\": \"object async_generator can't be used in 'await' expression\"\x7d\n\n"]
    ∧ (generate_text_stream "llama2" { prompt := "Hello" }
          (.resp 200 [{ name := "llama2:latest", model := "llama2:latest" }])
          ["Hello", " world"] none).events
      ≠ ["data: \x7b\"text\": \"Hello\"\x7d\n\n", "data: \x7b\"text\": \" world\"\x7d\n\n",
          "data: [DONE]\n\n"] :=
  ⟨rfl, by decide⟩

/-- C4: a backend stream that fails after emitting one fragment still
produces only the single generic TypeError event: the already-emitted
fragment is not relayed before the error event as the claim requires (its
SSE event is absent from the produced sequence), and no `[DONE]` event
appears. -/
theorem c4_midstream_failure_broken :
    (generate_text_stream "llama2" { prompt := "Hi" }
        (.resp 200 [{ name := "llama2:latest", model := "llama2:latest" }])
        ["Hello"] (some "connection reset")).events
      = ["data: \x7b\"error\": \"object async_generator can't be used in 'await' expression\"\x7d\n\n"]
    ∧ "data: \x7b\"text\": \"Hello\"\x7d\n\n"
        ∉ (generate_text_stream "llama2" { prompt := "Hi" }
            (.resp 200 [{ name := "llama2:latest", model := "llama2:latest" }])
            ["Hello"] (some "connection reset")).events
    ∧ "data: [DONE]\n\n"
        ∉ (generate_text_stream "llama2" { prompt := "Hi" }
            (.resp 200 [{ name := "llama2:latest", model := "llama2:latest" }])
            ["Hello"] (some "connection reset")).events :=
  ⟨rfl, by decide, by decide⟩

set_option maxRecDepth 10000 in
/-- C10: the route's 404 branch is indeed unreachable - `POST
/generate/stream` always answers the HTTP 200 streaming response - but a
request naming a model absent from the catalog is NOT answered with the
structured model-not-found event: the TypeError raised by awaiting the
async-generator object preempts the model-existence check (which would have
run lazily inside the generator), so the single in-stream event is the
generic `{"error": ...}` event and `ModelNotFoundError.to_dict`'s payload
never appears. -/
theorem c10_stream_model_not_found_generic (default_model : String) (r : GenerateRequest)
    (tags : TagsResult) (backendFrags : List String) (backendEnd : Option String) :
    (generate_text_stream default_model r tags backendFrags backendEnd).statusCode = 200
    ∧ (generate_text_stream "llama2" { prompt := "Hello", model := some "ghost-model" }
          (.resp 200 [{ name := "llama2:latest", model := "llama2:latest" }]) [] none).events
      = ["data: \x7b\"error\": \"object async_generator can't be used in 'await' expression\"\x7d\n\n"]
    ∧ ("data: "
          ++ dumps_mnf (ModelNotFoundErr.to_dict
              { model_name := "ghost-model", provider := "ollama" }) ++ "\n\n")
        ∉ (generate_text_stream "llama2" { prompt := "Hello", model := some "ghost-model" }
            (.resp 200 [{ name := "llama2:latest", model := "llama2:latest" }]) [] none).events :=
  ⟨rfl, rfl, by decide⟩

/-- C5: `GET /health` always answers HTTP 200, with the body's status field
"healthy" exactly when the backend health check succeeds; and the provider's
`health_check` and `check_model_exists` are total Bool functions (so they
never raise) that answer false on a raised transport error or timeout and on
every non-2xx listing response. -/
theorem c5_health_fails_closed (tags : TagsResult) (model_name base_url name : String)
    (s : Nat) (models : List CatalogEntry) (hs : s < 200 ∨ 299 < s) :
    (health_check_route tags model_name base_url).fst = 200
    ∧ ((health_check_route tags model_name base_url).snd.status = "healthy"
        ↔ OllamaProvider.health_check tags = true)
    ∧ OllamaProvider.check_model_exists (.resp s models) name = false
    ∧ OllamaProvider.check_model_exists .raised name = false
    ∧ OllamaProvider.health_check .raised = false
    ∧ OllamaProvider.health_check (.resp s models) = false := by
  have hne : s ≠ 200 := by omega
  refine ⟨rfl, ?_, ?_, rfl, rfl, ?_⟩
  · unfold health_check_route
    cases h : OllamaProvider.health_check tags <;> simp [h]
  · simp [OllamaProvider.check_model_exists, hne]
  · simp [OllamaProvider.health_check, hne]

/-- C5 witness: the statement at a raised listing call and at status 500. -/
theorem c5_health_fails_closed_witness :
    ((500 : Nat) < 200 ∨ 299 < 500)
    ∧ ((health_check_route .raised "llama2" "http://localhost:11434").fst = 200
       ∧ ((health_check_route .raised "llama2" "http://localhost:11434").snd.status = "healthy"
           ↔ OllamaProvider.health_check .raised = true)
       ∧ OllamaProvider.check_model_exists (.resp 500 []) "llama2" = false
       ∧ OllamaProvider.check_model_exists .raised "llama2" = false
       ∧ OllamaProvider.health_check .raised = false
       ∧ OllamaProvider.health_check (.resp 500 []) = false) :=
  ⟨Or.inr (by decide),
    c5_health_fails_closed .raised "llama2" "http://localhost:11434" "llama2" 500 []
      (Or.inr (by decide))⟩

/-- C6: a buffered `/generate` request that names a model absent from the
backend catalog is answered 404 with the structured remediation body:
`error`, `model_name` (equal to the requested name), `provider`, `message`,
and the `instructions` object carrying `download_command`,
`list_models_command` and `browse_models_url`. -/
theorem c6_model_not_found_404 (default_model m : String) (r : GenerateRequest)
    (catalog : List CatalogEntry) (backend : BackendGenResult) (elapsed_ms : Rat)
    (hm : r.model = some m) (hne : m ≠ "") (hstream : r.stream = false)
    (habsent : check_model_exists_models m catalog = false) :
    generate_text default_model r (.resp 200 catalog) backend elapsed_ms
      = .httpError 404 (.modelNotFoundDict
          { error := "Model Not Found"
            model_name := m
            provider := "ollama"
            message := ModelNotFoundErr.message { model_name := m, provider := "ollama" }
            instructions := some
              { download_command := "ollama pull " ++ m
                list_models_command := "ollama list"
                browse_models_url := "https://ollama.ai/library" } }) := by
  have hpm : LLMService.provider_model default_model r = m := by
    rw [LLMService.provider_model, hm]
    by_cases hd : m = default_model
    · subst hd; simp
    · simp [hne, hd]
  have hcheck : OllamaProvider.check_model_exists (.resp 200 catalog) m = false := by
    simp [OllamaProvider.check_model_exists, habsent]
  simp [generate_text, hstream, LLMService.generate_text, hpm, OllamaProvider.generate,
    hcheck, ModelNotFoundErr.to_dict, ModelNotFoundErr.message, ModelNotFoundErr.instructions]

/-- C6 witness: requesting the absent model "ghost-model" against a catalog
holding only llama2:latest. -/
theorem c6_model_not_found_404_witness :
    (({ prompt := "Hello", model := some "ghost-model" } : GenerateRequest).model
        = some "ghost-model"
      ∧ "ghost-model" ≠ ""
      ∧ ({ prompt := "Hello", model := some "ghost-model" } : GenerateRequest).stream = false
      ∧ check_model_exists_models "ghost-model"
          [{ name := "llama2:latest", model := "llama2:latest" }] = false)
    ∧ generate_text "llama2" { prompt := "Hello", model := some "ghost-model" }
        (.resp 200 [{ name := "llama2:latest", model := "llama2:latest" }])
        (.httpError "x") 0
      = .httpError 404 (.modelNotFoundDict
          { error := "Model Not Found"
            model_name := "ghost-model"
            provider := "ollama"
            message := ModelNotFoundErr.message
              { model_name := "ghost-model", provider := "ollama" }
            instructions := some
              { download_command := "ollama pull " ++ "ghost-model"
                list_models_command := "ollama list"
                browse_models_url := "https://ollama.ai/library" } }) :=
  ⟨⟨rfl, by decide, rfl, by decide⟩,
    c6_model_not_found_404 "llama2" "ghost-model"
      { prompt := "Hello", model := some "ghost-model" }
      [{ name := "llama2:latest", model := "llama2:latest" }] (.httpError "x") 0
      rfl (by decide) rfl (by decide)⟩

/-- C7: a GenerateRequest whose prompt is blank after stripping or whose
max_tokens, temperature, top_p or top_k lies outside its bounds fails
pydantic validation, and the `/generate` endpoint then answers the
validation error without consulting the backend: the response is the same
for every backend state. -/
theorem c7_validation_rejects (default_model : String) (r : GenerateRequest)
    (tags tags2 : TagsResult) (backend backend2 : BackendGenResult) (t t2 : Rat)
    (h : pyStrip r.prompt = "" ∨ r.max_tokens < 1 ∨ 4096 < r.max_tokens
       ∨ r.temperature < 0 ∨ 2 < r.temperature
       ∨ r.top_p < 0 ∨ 1 < r.top_p ∨ r.top_k < 0) :
    r.valid = false
    ∧ generate_endpoint default_model r tags backend t
        = .httpError 422 (.text "request validation failed")
    ∧ generate_endpoint default_model r tags backend t
        = generate_endpoint default_model r tags2 backend2 t2 := by
  have hv : r.valid = false := by
    rw [GenerateRequest.valid]
    rcases h with h | h | h | h | h | h | h | h
    · simp [h]
    · simp [decide_eq_false (not_le.mpr h)]
    · simp [decide_eq_false (not_le.mpr h)]
    · simp [decide_eq_false (not_le.mpr h)]
    · simp [decide_eq_false (not_le.mpr h)]
    · simp [decide_eq_false (not_le.mpr h)]
    · simp [decide_eq_false (not_le.mpr h)]
    · simp [decide_eq_false (not_le.mpr h)]
  exact ⟨hv, by simp [generate_endpoint, hv], by simp [generate_endpoint, hv]⟩

/-- C7 witness: a whitespace-only prompt. -/
theorem c7_validation_rejects_witness :
    (pyStrip ({ prompt := "   " } : GenerateRequest).prompt = ""
      ∨ ({ prompt := "   " } : GenerateRequest).max_tokens < 1
      ∨ 4096 < ({ prompt := "   " } : GenerateRequest).max_tokens
      ∨ ({ prompt := "   " } : GenerateRequest).temperature < 0
      ∨ 2 < ({ prompt := "   " } : GenerateRequest).temperature
      ∨ ({ prompt := "   " } : GenerateRequest).top_p < 0
      ∨ 1 < ({ prompt := "   " } : GenerateRequest).top_p
      ∨ ({ prompt := "   " } : GenerateRequest).top_k < 0)
    ∧ (({ prompt := "   " } : GenerateRequest).valid = false
       ∧ generate_endpoint "llama2" { prompt := "   " } .raised (.httpError "x") 0
           = .httpError 422 (.text "request validation failed")
       ∧ generate_endpoint "llama2" { prompt := "   " } .raised (.httpError "x") 0
           = generate_endpoint "llama2" { prompt := "   " } (.resp 200 [])
               (.ok { response := "", eval_count := 0, done_reason := "" }) 1) :=
  ⟨Or.inl (by decide),
    c7_validation_rejects "llama2" { prompt := "   " } .raised (.resp 200 [])
      (.httpError "x") (.ok { response := "", eval_count := 0, done_reason := "" }) 0 1
      (Or.inl (by decide))⟩

/-- C8: in summary mode a document text longer than 4000 characters is
embedded as its first 4000 characters plus the truncation marker, while a
text of at most 4000 characters is embedded unmodified; full mode always
embeds the text unmodified; and smart mode produces exactly the prompt full
mode produces. -/
theorem c8_context_modes (question text : String) (hlong : 4000 < pyLen text) :
    build_prompt question text "summary"
      = "Based on the following document content, please answer the question.\n\nDocument Content:\n"
          ++ (pyTake text 4000 ++ "\n\n[... document truncated ...]")
          ++ "\n\nQuestion: " ++ question ++ "\n\nAnswer:"
    ∧ (∀ t2 : String, pyLen t2 ≤ 4000 →
        build_prompt question t2 "summary"
          = "Based on the following document content, please answer the question.\n\nDocument Content:\n"
              ++ t2 ++ "\n\nQuestion: " ++ question ++ "\n\nAnswer:")
    ∧ (∀ t3 : String,
        build_prompt question t3 "full"
          = "Based on the following document content, please answer the question.\n\nDocument Content:\n"
              ++ t3 ++ "\n\nQuestion: " ++ question ++ "\n\nAnswer:")
    ∧ (∀ t4 : String, build_prompt question t4 "smart" = build_prompt question t4 "full") := by
  refine ⟨?_, ?_, fun t3 => rfl, fun t4 => rfl⟩
  · simp [build_prompt, hlong]
  · intro t2 h2
    simp [build_prompt, not_lt.mpr h2]

/-- C8 witness: the 4001-character text exceeds the budget. -/
theorem c8_context_modes_witness :
    4000 < pyLen bigText
    ∧ build_prompt "Q" bigText "summary"
        = "Based on the following document content, please answer the question.\n\nDocument Content:\n"
            ++ (pyTake bigText 4000 ++ "\n\n[... document truncated ...]")
            ++ "\n\nQuestion: " ++ "Q" ++ "\n\nAnswer:" := by
  have h1 : pyLen bigText = 4001 := List.length_replicate 4001 'a'
  have hbig : 4000 < pyLen bigText := by omega
  exact ⟨hbig, (c8_context_modes "Q" bigText hbig).1⟩

/-- C9, counterexample: at the `/document/question` endpoint the form's
max_tokens default is 1024 while GenerateRequest's default is 512, so the
endpoint's generation parameters do not obey the same defaults as
GenerationRequest. -/
theorem c9_counterexample :
    ({ question := "q" } : DocumentQuestionForm).max_tokens = 1024
    ∧ ({ prompt := "p" } : GenerateRequest).max_tokens = 512
    ∧ ({ question := "q" } : DocumentQuestionForm).max_tokens
        ≠ ({ prompt := "p" } : GenerateRequest).max_tokens :=
  ⟨rfl, rfl, by decide⟩

/-- C9 (amended): at the `/document/question` endpoint a blank question
fails DocumentQuestionRequest validation and the endpoint answers 400
(whatever the backend state); the form's parameter bounds coincide with
GenerateRequest's; context_mode defaults to "full"; and the temperature,
top_p and top_k defaults match GenerateRequest's - but the form's
max_tokens default is 1024, not GenerateRequest's 512. -/
theorem c9_document_question_validation (default_model q : String)
    (extraction : Except String String) (tags : TagsResult) (backend : BackendGenResult)
    (elapsed_ms : Rat) (hq : pyStrip q = "") :
    DocumentQuestionRequest.valid { question := q } = false
    ∧ (ask_document_question default_model { question := q } "doc.pdf" [1]
        extraction tags backend elapsed_ms).statusCode = 400
    ∧ (∀ (mt : Int) (tp tpp : Rat) (tk : Int),
        DocumentQuestionForm.paramsOk mt tp tpp tk = GenerateRequest.paramsOk mt tp tpp tk)
    ∧ ({ question := "q" } : DocumentQuestionForm).context_mode = "full"
    ∧ ({ question := "q" } : DocumentQuestionForm).temperature
        = ({ prompt := "p" } : GenerateRequest).temperature
    ∧ ({ question := "q" } : DocumentQuestionForm).top_p
        = ({ prompt := "p" } : GenerateRequest).top_p
    ∧ ({ question := "q" } : DocumentQuestionForm).top_k
        = ({ prompt := "p" } : GenerateRequest).top_k
    ∧ ({ question := "q" } : DocumentQuestionForm).max_tokens = 1024 := by
  have hv : DocumentQuestionRequest.valid { question := q } = false := by
    rw [DocumentQuestionRequest.valid]; simp [hq]
  have hv2 : DocumentQuestionRequest.valid { question := q, max_tokens := 1024 } = false := by
    rw [DocumentQuestionRequest.valid]; simp [hq]
  have hpdf : pyEndsWith (pyLower "doc.pdf") ".pdf" = true := by decide
  refine ⟨hv, ?_, fun _ _ _ _ => rfl, rfl, rfl, rfl, rfl, rfl⟩
  simp [ask_document_question, hpdf, hv2, RouteResponse.statusCode]

/-- C9 witness: a whitespace question at the endpoint. -/
theorem c9_document_question_validation_witness :
    pyStrip " " = ""
    ∧ DocumentQuestionRequest.valid { question := " " } = false
    ∧ (ask_document_question "llama2" { question := " " } "doc.pdf" [1]
        (.ok "text") .raised (.httpError "x") 0).statusCode = 400 := by
  have h : pyStrip " " = "" := by decide
  have full := c9_document_question_validation "llama2" " " (.ok "text") .raised
    (.httpError "x") 0 h
  exact ⟨h, full.1, full.2.1⟩
